import Mathlib

/-!
Verification development for the Carrom board game engine
(`carrom_game_fixed.py`): a shallow embedding of the physics
simulation (disc motion, collision resolution, pocket capture) and the
turn/scoring rule engine, together with theorems checking the
specification's claims against the embedded code.

Modelling conventions:
* Python floats are modelled as `ℚ` (every float is a rational); the
  transcendental library functions `math.sqrt`, `math.cos`, `math.sin`
  are deterministic functions on floats and are modelled as explicit
  function parameters (`sqrtq : ℚ → ℚ`, position oracles) so that every
  theorem quantifying over them covers the real float functions.
* Fallible arithmetic is explicit: `Coin.check_collision` divides by the
  centre distance, which raises `ZeroDivisionError` in Python when the
  distance is zero; the embedding returns `Option` and yields `none`
  exactly in that case.
* `random.uniform` / particle randomness only feeds the cosmetic
  `rotation` field and the `strike_particles` lists; those random draws
  are modelled as injected parameters (`rot` oracles, `noise` streams).
-/

namespace Carrom

/-! ### Constants (source lines 16-23) -/

def SCREEN_WIDTH : ℚ := 800
def SCREEN_HEIGHT : ℚ := 800
def BOARD_SIZE : ℚ := 600
def POCKET_RADIUS : ℚ := 30
def STRIKER_RADIUS : ℚ := 20
def COIN_RADIUS : ℚ := 15
def QUEEN_RADIUS : ℚ := 15

/-- `board_margin = (SCREEN_WIDTH - BOARD_SIZE) // 2` (exact: 100). -/
def boardMargin : ℚ := (SCREEN_WIDTH - BOARD_SIZE) / 2

/-! ### Game-state constants (source lines 41-45) -/

def START_SCREEN : ℕ := 0
def SETTINGS_SCREEN : ℕ := 1
def PLAYING : ℕ := 2
def GAME_OVER : ℕ := 3
def PAUSED : ℕ := 4

/-- The three colours a disc can have (`WHITE`, `BLACK`, `RED`); the
striker is `white`, the queen is `red`. -/
inductive CColor where
  | white
  | black
  | red
deriving DecidableEq

/-- The physical (gameplay-relevant) fields of a `Coin`
(source lines 81-91, minus the cosmetic `rotation`). -/
structure CoinPhys where
  x : ℚ
  y : ℚ
  velocity_x : ℚ
  velocity_y : ℚ
  radius : ℚ
  friction : ℚ
  color : CColor
  is_queen : Bool
  is_pocketed : Bool
deriving DecidableEq

/-- A coin: physical fields plus the cosmetic rotation angle. -/
structure Coin where
  phys : CoinPhys
  rotation : ℚ
deriving DecidableEq

/-- `Coin.__init__` (source lines 81-91).  `rotation` is
`random.uniform(0, 360)` in the source and is passed in here. -/
def mkCoin (x y : ℚ) (color : CColor) (is_queen : Bool) (rotation : ℚ) : Coin :=
  { phys :=
      { x := x, y := y, velocity_x := 0, velocity_y := 0,
        radius := if is_queen then QUEEN_RADIUS else COIN_RADIUS,
        friction := 98/100, color := color,
        is_queen := is_queen, is_pocketed := false },
    rotation := rotation }

/-- A cosmetic strike particle (position, velocity, remaining life);
the colour components never feed back into gameplay and are omitted. -/
structure Particle where
  px : ℚ
  py : ℚ
  pvx : ℚ
  pvy : ℚ
  life : ℚ
deriving DecidableEq

/-- The striker (source lines 259-273): coin fields plus aiming and
shooting state and the cosmetic particle list. -/
structure Striker where
  phys : CoinPhys
  rotation : ℚ
  is_positioned : Bool
  is_aiming : Bool
  aim_angle : ℚ
  power : ℚ
  max_power : ℚ
  is_shooting : Bool
  strike_particles : List Particle
  strike_sound_played : Bool
deriving DecidableEq

/-! ### Coin motion update (source lines 93-132) -/

/-- Friction then the stop-snap: both velocity components are multiplied
by the friction coefficient and snapped to exactly zero when both are
below 0.1 in absolute value (source lines 98-105). -/
def preClampVel (p : CoinPhys) : ℚ × ℚ :=
  let vx0 := p.velocity_x * p.friction
  let vy0 := p.velocity_y * p.friction
  if |vx0| < 1/10 ∧ |vy0| < 1/10 then (0, 0) else (vx0, vy0)

/-- Wall clamp for one axis (source lines 117-132): if the disc's edge
crosses the playable boundary, clamp the position and negate the axis
velocity scaled by 0.8.  `limit` is `SCREEN_WIDTH` for x and
`SCREEN_HEIGHT` for y. -/
def clampAxis (limit pos vel radius : ℚ) : ℚ × ℚ :=
  if pos - radius < boardMargin then
    (boardMargin + radius, -vel * (8/10))
  else if pos + radius > limit - boardMargin then
    (limit - boardMargin - radius, -vel * (8/10))
  else (pos, vel)

/-- The physical part of `Coin.update` for a non-pocketed coin:
friction, stop-snap, position advance, wall clamp. -/
def physUpdate (p : CoinPhys) : CoinPhys :=
  let v := preClampVel p
  let x := p.x + v.1
  let y := p.y + v.2
  let xv := clampAxis SCREEN_WIDTH x v.1 p.radius
  let yv := clampAxis SCREEN_HEIGHT y v.2 p.radius
  { p with x := xv.1, velocity_x := xv.2, y := yv.1, velocity_y := yv.2 }

/-- `Coin.update` restricted to the physical fields: a pocketed coin is
a no-op (source lines 95-96). -/
def physCoinUpdate (p : CoinPhys) : CoinPhys :=
  if p.is_pocketed then p else physUpdate p

/-- `r % 360` on rationals (Python float `%` is floor-mod). -/
def rotMod (r : ℚ) : ℚ :=
  r - 360 * (Int.floor (r / 360) : ℤ)

/-- `Coin.update` (source lines 93-132).  The cosmetic rotation advances
by `speed * 2` (mod 360) using the pre-clamp velocities, where `speed`
is the float square root `sqrtq` of `vx² + vy²` (source lines 111-115). -/
def Coin.update (sqrtq : ℚ → ℚ) (c : Coin) : Coin :=
  if c.phys.is_pocketed then c
  else
    let v := preClampVel c.phys
    { phys := physUpdate c.phys,
      rotation :=
        if v.1 ≠ 0 ∨ v.2 ≠ 0 then
          rotMod (c.rotation + sqrtq (v.1 * v.1 + v.2 * v.2) * 2)
        else c.rotation }

theorem Coin.update_phys (sqrtq : ℚ → ℚ) (c : Coin) :
    (Coin.update sqrtq c).phys = physCoinUpdate c.phys := by
  unfold Coin.update physCoinUpdate
  by_cases h : c.phys.is_pocketed = true <;> simp [h]

/-- One frame of a cosmetic particle (source lines 352-355). -/
def Particle.step (q : Particle) : Particle :=
  { q with px := q.px + q.pvx, py := q.py + q.pvy, life := q.life - 1 }

/-- `Striker.update` (source lines 345-364): the inherited coin update,
then particle advance/decay, then the sound flag reset when at rest. -/
def Striker.update (sqrtq : ℚ → ℚ) (s : Striker) : Striker :=
  let base := Coin.update sqrtq { phys := s.phys, rotation := s.rotation }
  let parts := (s.strike_particles.map Particle.step).filter
    (fun q => decide (q.life > 0))
  { s with phys := base.phys, rotation := base.rotation,
           strike_particles := parts,
           strike_sound_played :=
             if base.phys.velocity_x = 0 ∧ base.phys.velocity_y = 0 then false
             else s.strike_sound_played }

/-! ### Pockets (source lines 479-487, 244-257) -/

/-- The four corner pockets created by `create_pockets`. -/
def pockets : List (ℚ × ℚ) :=
  [(boardMargin, boardMargin),
   (SCREEN_WIDTH - boardMargin, boardMargin),
   (boardMargin, SCREEN_HEIGHT - boardMargin),
   (SCREEN_WIDTH - boardMargin, SCREEN_HEIGHT - boardMargin)]

/-- `Coin.check_pocket` (source lines 244-257) on the physical fields:
a non-pocketed disc whose float distance to some pocket centre is below
`POCKET_RADIUS - 5` becomes pocketed; returns the updated disc and
whether a capture happened. -/
def checkPocketP (sqrtq : ℚ → ℚ) (p : CoinPhys) : CoinPhys × Bool :=
  if p.is_pocketed then (p, false)
  else if pockets.any (fun pk =>
      decide (sqrtq ((pk.1 - p.x) * (pk.1 - p.x) + (pk.2 - p.y) * (pk.2 - p.y))
        < POCKET_RADIUS - 5)) then
    ({ p with is_pocketed := true }, true)
  else (p, false)

/-! ### Pairwise collision resolution (source lines 160-242) -/

/-- `Coin.check_collision` (source lines 160-242) on the physical
fields.  Returns `none` when the source raises `ZeroDivisionError`:
inside the overlap branch the collision normal is computed as
`nx = dx / distance`, which fails exactly when the computed float
distance is zero.  Otherwise returns the two updated discs and
`some impact_speed` when the collision was resolved (source returned
`True`), `none` impact when it returned `False` (pocketed pair or
separating pair). -/
def physPairCollide (sqrtq : ℚ → ℚ) (a b : CoinPhys) :
    Option (CoinPhys × CoinPhys × Option ℚ) :=
  if a.is_pocketed ∨ b.is_pocketed then some (a, b, none)
  else
    let dx := b.x - a.x
    let dy := b.y - a.y
    let distance := sqrtq (dx * dx + dy * dy)
    if distance < a.radius + b.radius then
      if distance = 0 then none
      else
        let nx := dx / distance
        let ny := dy / distance
        let dvx := b.velocity_x - a.velocity_x
        let dvy := b.velocity_y - a.velocity_y
        let impact_speed := dvx * nx + dvy * ny
        if impact_speed < 0 then some (a, b, none)
        else
          let impulse := 2 * impact_speed / (a.radius + b.radius)
          let overlap := (a.radius + b.radius - distance) / 2
          let a2 :=
            { a with
                velocity_x := a.velocity_x + impulse * nx * b.radius,
                velocity_y := a.velocity_y + impulse * ny * b.radius,
                x := a.x - overlap * nx,
                y := a.y - overlap * ny }
          let b2 :=
            { b with
                velocity_x := b.velocity_x - impulse * nx * a.radius,
                velocity_y := b.velocity_y - impulse * ny * a.radius,
                x := b.x + overlap * nx,
                y := b.y + overlap * ny }
          some (a2, b2, some impact_speed)
    else some (a, b, none)

/-- `Coin.check_collision` between two regular coins: rotation fields
are untouched by the source collision code. -/
def Coin.check_collision (sqrtq : ℚ → ℚ) (a b : Coin) :
    Option (Coin × Coin × Bool) :=
  match physPairCollide sqrtq a.phys b.phys with
  | none => none
  | some (pa, pb, r) =>
      some ({ a with phys := pa }, { b with phys := pb }, r.isSome)

/-- `check_collision` with the striker as `self` (the
`isinstance(self, Striker)` branch, source lines 203-229): when the
resolved impact speed exceeds 0.5, cosmetic particles are appended; the
number and attributes of the spawned particles are random draws,
modelled as the injected list `noise`. -/
def Striker.check_collision (sqrtq : ℚ → ℚ) (noise : List Particle)
    (s : Striker) (b : Coin) : Option (Striker × Coin) :=
  match physPairCollide sqrtq s.phys b.phys with
  | none => none
  | some (pa, pb, r) =>
      let s2 := { s with phys := pa }
      let s3 :=
        match r with
        | some impact =>
            if impact > 1/2 then
              { s2 with strike_particles := s2.strike_particles ++ noise }
            else s2
        | none => s2
      some (s3, { b with phys := pb })

/-! ### Striker positioning and shooting (source lines 275-343) -/

/-- `Striker.reset_position` (source lines 275-294): zero the velocity,
place the striker on the current player's baseline, clear the
aiming/shooting flags and the pocketed flag. -/
def Striker.reset_position (s : Striker) (player : ℕ) : Striker :=
  { s with
      phys :=
        { s.phys with
            velocity_x := 0, velocity_y := 0,
            x := SCREEN_WIDTH / 2,
            y := if player = 1 then SCREEN_HEIGHT - boardMargin - 50
                 else boardMargin + 50,
            is_pocketed := false },
      is_positioned := false, is_aiming := false,
      is_shooting := false, power := 0 }

/-- `Striker.__init__` (source lines 261-273): the coin constructor with
colour `WHITE`, radius `STRIKER_RADIUS`, then `reset_position(1)`; the
random initial rotation is passed in. -/
def mkStriker (rotation : ℚ) : Striker :=
  Striker.reset_position
    { phys :=
        { x := SCREEN_WIDTH / 2, y := SCREEN_HEIGHT - 100,
          velocity_x := 0, velocity_y := 0,
          radius := STRIKER_RADIUS, friction := 98/100,
          color := CColor.white, is_queen := false, is_pocketed := false },
      rotation := rotation,
      is_positioned := false, is_aiming := false, aim_angle := 0,
      power := 0, max_power := 20, is_shooting := false,
      strike_particles := [], strike_sound_played := false } 1

/-- `Striker.shoot` (source lines 314-343).  The source sets the
velocity to `cos(aim_angle) * power` / `sin(aim_angle) * power`;
`math.cos`/`math.sin` are deterministic float functions, so the
resulting velocity components are passed in directly as `vx`, `vy`.
The fresh strike-effect particle list is random and injected as
`noise`. -/
def Striker.shoot (noise : List Particle) (vx vy : ℚ) (s : Striker) : Striker :=
  { s with
      phys := { s.phys with velocity_x := vx, velocity_y := vy },
      is_shooting := true, is_positioned := false, is_aiming := false,
      strike_particles := noise }

/-! ### The aggregate game state (`CarromGame`, source lines 428-477) -/

/-- The fields of `CarromGame` that the game logic reads or writes
(rendering-only fields like fonts, the screen and the theme table are
omitted; `current_theme` is kept because it is persisted). -/
structure GameState where
  player_mode : ℕ
  current_theme : String
  game_state : ℕ
  striker : Striker
  coins : List Coin
  current_player : ℕ
  player1_score : ℕ
  player2_score : ℕ
  player3_score : ℕ
  player4_score : ℕ
  queen_pocketed : Bool
  queen_covered : Bool
  last_pocketed_queen : Bool
  foul_count : ℕ
  winner : Option ℕ
  all_coins_still : Bool
  turn_message : String
  game_saved : Bool
deriving DecidableEq

/-! ### The rule engine (source lines 674-766) -/

/-- The queen-return loop inside `handle_foul` (source lines 720-727):
the first coin with `is_queen` is un-pocketed and placed at the board
centre; returns the updated list and whether a queen was found (the
source clears `last_pocketed_queen` only on `break`, i.e. only when a
queen coin exists). -/
def returnQueenToCenter : List Coin → List Coin × Bool
  | [] => ([], false)
  | c :: cs =>
      if c.phys.is_queen then
        ({ c with phys :=
            { c.phys with is_pocketed := false,
                          x := SCREEN_WIDTH / 2, y := SCREEN_HEIGHT / 2 } } :: cs,
         true)
      else
        let r := returnQueenToCenter cs
        (c :: r.1, r.2)

/-- `CarromGame.handle_foul` (source lines 714-731): record the message,
return a pending uncovered queen to the centre, switch the turn with
`current_player = 3 - current_player`, and reset the striker to the new
player's baseline.  Note: the foul counter is NOT touched here. -/
def handleFoul (s : GameState) (message : String) : GameState :=
  { s with
      turn_message := message,
      coins :=
        if s.last_pocketed_queen ∧ ¬s.queen_covered then
          (returnQueenToCenter s.coins).1
        else s.coins,
      last_pocketed_queen :=
        if s.last_pocketed_queen ∧ ¬s.queen_covered then
          (if (returnQueenToCenter s.coins).2 then false
           else s.last_pocketed_queen)
        else s.last_pocketed_queen,
      current_player := 3 - s.current_player,
      striker := Striker.reset_position s.striker (3 - s.current_player) }

/-- `CarromGame.handle_pocketed_coin` (source lines 674-712). -/
def handlePocketedCoin (s : GameState) (coin : Coin) : GameState :=
  if coin.phys.is_queen then
    { s with queen_pocketed := true, last_pocketed_queen := true,
             turn_message := "Player " ++ toString s.current_player ++
               " pocketed the Queen! Must cover it.",
             foul_count := 0 }
  else if coin.phys.color = CColor.white ∧ s.current_player = 1 then
    let s1 := { s with player1_score := s.player1_score + 1,
                       turn_message := "Player 1 pocketed a white coin!",
                       foul_count := 0 }
    if s.last_pocketed_queen then
      { s1 with queen_covered := true,
                player1_score := s1.player1_score + 3,
                turn_message := "Player 1 covered the Queen! +3 points",
                last_pocketed_queen := false }
    else s1
  else if coin.phys.color = CColor.black ∧ s.current_player = 2 then
    let s1 := { s with player2_score := s.player2_score + 1,
                       turn_message := "Player 2 pocketed a black coin!",
                       foul_count := 0 }
    if s.last_pocketed_queen then
      { s1 with queen_covered := true,
                player2_score := s1.player2_score + 3,
                turn_message := "Player 2 covered the Queen! +3 points",
                last_pocketed_queen := false }
    else s1
  else
    handleFoul s ("Player " ++ toString s.current_player ++
      " pocketed opponent\x27s coin!")

/-- `CarromGame.check_turn_end` (source lines 733-745). -/
def checkTurnEnd (s : GameState) : GameState :=
  if s.foul_count ≥ 3 then
    let s1 := handleFoul s ("Player " ++ toString s.current_player ++
      " committed 3 consecutive fouls!")
    { s1 with foul_count := 0 }
  else if s.foul_count > 0 then
    let p := 3 - s.current_player
    { s with current_player := p,
             striker := Striker.reset_position s.striker p,
             turn_message := "Player " ++ toString p ++ "\x27s turn" }
  else s

/-- The number of non-pocketed white coins (source lines 749-758). -/
def whiteCount (cs : List Coin) : ℕ :=
  (cs.filter (fun c =>
    decide (c.phys.is_pocketed = false ∧ c.phys.color = CColor.white))).length

/-- The number of non-pocketed black coins (source lines 749-758). -/
def blackCount (cs : List Coin) : ℕ :=
  (cs.filter (fun c =>
    decide (c.phys.is_pocketed = false ∧ c.phys.color = CColor.black))).length

/-- `CarromGame.check_game_over` (source lines 747-766): if no
non-pocketed white coin remains the winner is player 1, else if no
non-pocketed black coin remains the winner is player 2; the queen is
`RED` and counted for neither side. -/
def checkGameOver (s : GameState) : GameState :=
  if whiteCount s.coins = 0 then
    { s with winner := some 1, game_state := GAME_OVER }
  else if blackCount s.coins = 0 then
    { s with winner := some 2, game_state := GAME_OVER }
  else s

/-- The striker-pocketed branch of `CarromGame.update` (source lines
633-637): `handle_foul("Striker pocketed!")`, then
`striker.is_shooting = False`, then return (the rest of the tick is
skipped). -/
def handleStrikerPocketed (s : GameState) : GameState :=
  let s1 := handleFoul s "Striker pocketed!"
  { s1 with striker := { s1.striker with is_shooting := false } }

/-! ### One simulation tick: `CarromGame.update` (source lines 625-672) -/

/-- The inner collision loop of one tick for a fixed `i`
(source lines 650-652): `coins[i]` against each `coins[j]`, `j > i`, in
order, with the in-place updates threaded through; both-not-pocketed
guard as in the source. -/
def coinVsRest (sqrtq : ℚ → ℚ) (c : Coin) : List Coin → Option (Coin × List Coin)
  | [] => some (c, [])
  | d :: ds =>
      let step : Option (Coin × Coin) :=
        if ¬c.phys.is_pocketed ∧ ¬d.phys.is_pocketed then
          match Coin.check_collision sqrtq c d with
          | none => none
          | some (c2, d2, _) => some (c2, d2)
        else some (c, d)
      match step with
      | none => none
      | some (c2, d2) =>
          match coinVsRest sqrtq c2 ds with
          | none => none
          | some (c3, ds2) => some (c3, d2 :: ds2)

/-- The outer collision loop of one tick (source lines 644-652): for
each `i` in order, first the striker against `coins[i]` (guarded by
`coins[i]` not pocketed), then `coins[i]` against each later coin.
`noise idx` supplies the random particle draws of the striker collision
at index `idx`.  The first argument is termination fuel, always called
with the list length (which `coinVsRest` preserves). -/
def collideLoop (sqrtq : ℚ → ℚ) (noise : ℕ → List Particle) :
    ℕ → ℕ → Striker → List Coin → Option (Striker × List Coin)
  | 0, _, s, cs => some (s, cs)
  | _ + 1, _, s, [] => some (s, [])
  | fuel + 1, idx, s, c :: rest =>
      let first : Option (Striker × Coin) :=
        if ¬c.phys.is_pocketed then
          Striker.check_collision sqrtq (noise idx) s c
        else some (s, c)
      match first with
      | none => none
      | some (s1, c1) =>
          match coinVsRest sqrtq c1 rest with
          | none => none
          | some (c2, rest2) =>
              match collideLoop sqrtq noise fuel (idx + 1) s1 rest2 with
              | none => none
              | some (s2, rest3) => some (s2, c2 :: rest3)

/-- The pocket-detection loop of one tick (source lines 654-657):
each coin is pocket-checked in order; a newly captured coin is passed to
`handle_pocketed_coin` (which may mutate the rule state, the coin list
via the queen return, and the striker).  `n` is the remaining fuel
(called with the list length), `i` the current index; returns the state
and the indices captured this tick in order. -/
def pocketStep (sqrtq : ℚ → ℚ) (i : ℕ) (s : GameState) (c : Coin) : GameState :=
  if (checkPocketP sqrtq c.phys).2 then
    handlePocketedCoin
      { s with coins :=
          s.coins.set i { c with phys := (checkPocketP sqrtq c.phys).1 } }
      { c with phys := (checkPocketP sqrtq c.phys).1 }
  else
    { s with coins :=
        s.coins.set i { c with phys := (checkPocketP sqrtq c.phys).1 } }

def pocketLoop (sqrtq : ℚ → ℚ) : ℕ → ℕ → GameState → GameState × List ℕ
  | 0, _, s => (s, [])
  | n + 1, i, s =>
      match s.coins[i]? with
      | none => (s, [])
      | some c =>
          let r := pocketLoop sqrtq n (i + 1) (pocketStep sqrtq i s c)
          (r.1, if (checkPocketP sqrtq c.phys).2 then i :: r.2 else r.2)

/-- The all-at-rest test of one tick (source lines 659-664): the striker
velocity is exactly zero and every non-pocketed coin's velocity is
exactly zero. -/
def allStill (striker : Striker) (cs : List Coin) : Bool :=
  (decide (striker.phys.velocity_x = 0 ∧ striker.phys.velocity_y = 0)) &&
  cs.all (fun c =>
    c.phys.is_pocketed ||
    decide (c.phys.velocity_x = 0 ∧ c.phys.velocity_y = 0))

/-- The tail of one tick after the collision pass (source lines
654-672): run the pocket loop, recompute `all_coins_still`, end the turn
if the shot just came to rest, and check game over. -/
def resolveTick (sqrtq : ℚ → ℚ) (s : GameState) : GameState × List ℕ :=
  let pr := pocketLoop sqrtq s.coins.length 0 s
  let s2 := pr.1
  let still := allStill s2.striker s2.coins
  let s3 := { s2 with all_coins_still := still }
  let s4 :=
    if still && s3.striker.is_shooting then
      checkTurnEnd
        { s3 with striker := { s3.striker with is_shooting := false } }
    else s3
  (checkGameOver s4, pr.2)

/-- `CarromGame.update` (source lines 625-672): update the striker; on a
striker capture record the foul and return immediately; otherwise update
every coin, resolve collisions, run pocket detection (scoring each
capture), recompute `all_coins_still`, end the turn if the shot just
came to rest, and check game over.  Returns the new state, whether the
striker was pocketed this tick, and the coin indices captured this tick.
`none` models the `ZeroDivisionError` of the collision code. -/
def gameUpdate (sqrtq : ℚ → ℚ) (noise : ℕ → List Particle) (s : GameState) :
    Option (GameState × Bool × List ℕ) :=
  if s.game_state ≠ PLAYING then some (s, false, [])
  else
    let st := Striker.update sqrtq s.striker
    let pk := checkPocketP sqrtq st.phys
    if pk.2 then
      some (handleStrikerPocketed { s with striker := { st with phys := pk.1 } },
            true, [])
    else
      let coins := s.coins.map (Coin.update sqrtq)
      match collideLoop sqrtq noise coins.length 0 st coins with
      | none => none
      | some (st2, coins2) =>
          let r := resolveTick sqrtq { s with striker := st2, coins := coins2 }
          some (r.1, false, r.2)

/-- The shot-release branch of `handle_events` (source lines 610-614):
on releasing the left button with positive power the striker is shot and
`foul_count` is incremented ("will be reset if valid shot"). -/
def shotRelease (noise : List Particle) (vx vy : ℚ) (s : GameState) : GameState :=
  { s with striker := Striker.shoot noise vx vy s.striker,
           foul_count := s.foul_count + 1 }

/-- The random draws consumed by one tick: the particle burst of a shot
released this tick and the stream of collision particle bursts. -/
structure TickNoise where
  shot : List Particle
  coll : ℕ → List Particle

/-- One frame: an optional shot release (the injected striker velocity)
followed by `CarromGame.update`. -/
def gameTick (sqrtq : ℚ → ℚ) (n : TickNoise) (inp : Option (ℚ × ℚ))
    (s : GameState) : Option (GameState × Bool × List ℕ) :=
  let s1 :=
    match inp with
    | some v => shotRelease n.shot v.1 v.2 s
    | none => s
  gameUpdate sqrtq n.coll s1

/-- A run: one `gameTick` per input-list entry, collecting each tick's
capture events (striker-pocketed flag and captured coin indices). -/
def runGame (sqrtq : ℚ → ℚ) (noise : ℕ → TickNoise) :
    List (Option (ℚ × ℚ)) → GameState →
    Option (GameState × List (Bool × List ℕ))
  | [], s => some (s, [])
  | inp :: rest, s =>
      match gameTick sqrtq (noise 0) inp s with
      | none => none
      | some (s1, ev) =>
          match runGame sqrtq (fun n => noise (n + 1)) rest s1 with
          | none => none
          | some (s2, evs) => some (s2, ev :: evs)

/-! ### Board setup and reset (source lines 458-532) -/

/-- `CarromGame.setup_coins` (source lines 489-531): the red queen at
the board centre, then an inner ring of 6 coins (even index black), a
middle ring of 8 coins (even index white) and an outer ring of 9 coins
(even index black).  The ring positions are
`center + radius * cos/sin(angle)` for irrational angles (multiples of
pi); the float positions are supplied by the oracle `pos` (ring coin
`k` at `pos k`), the colours and flags follow the source.  `rot k` is
the random initial rotation of coin `k`. -/
def setup_coins (pos : ℕ → ℚ × ℚ) (rot : ℕ → ℚ) : List Coin :=
  mkCoin (SCREEN_WIDTH / 2) (SCREEN_HEIGHT / 2) CColor.red true (rot 0) ::
  ((List.range 6).map (fun i =>
      mkCoin (pos i).1 (pos i).2
        (if i % 2 = 0 then CColor.black else CColor.white) false (rot (1 + i))) ++
   (List.range 8).map (fun i =>
      mkCoin (pos (6 + i)).1 (pos (6 + i)).2
        (if i % 2 = 0 then CColor.white else CColor.black) false (rot (7 + i))) ++
   (List.range 9).map (fun i =>
      mkCoin (pos (14 + i)).1 (pos (14 + i)).2
        (if i % 2 = 0 then CColor.black else CColor.white) false (rot (15 + i))))

/-- `CarromGame.reset_game` (source lines 458-477): fresh striker, fresh
coin layout, player 1 to move, zero scores, cleared queen and foul
state.  `player_mode`, `current_theme` and `game_state` are untouched. -/
def reset_game (pos : ℕ → ℚ × ℚ) (rot : ℕ → ℚ) (s : GameState) : GameState :=
  { s with
      striker := mkStriker (rot 100),
      coins := setup_coins pos rot,
      current_player := 1,
      player1_score := 0, player2_score := 0,
      player3_score := 0, player4_score := 0,
      queen_pocketed := false, queen_covered := false,
      last_pocketed_queen := false,
      foul_count := 0, winner := none,
      all_coins_still := true, turn_message := "", game_saved := false }

/-! ### Persistence: `save_game` / `load_game` (source lines 1150-1222) -/

/-- One persisted coin record: `(c.x, c.y, c.color, c.is_queen,
c.is_pocketed)` (source line 1166). -/
structure SavedCoin where
  sx : ℚ
  sy : ℚ
  scolor : CColor
  squeen : Bool
  spocketed : Bool
deriving DecidableEq

/-- The persisted dictionary written by `save_game` (source lines
1155-1168).  Every field is `Option`al so that a snapshot with missing
keys (a corrupt save) can be represented; reading a `none` field models
the `KeyError` of the source.  Note: `foul_count`, `winner` and
`game_state` are NOT persisted. -/
structure Snapshot where
  player_mode : Option ℕ
  current_theme : Option String
  current_player : Option ℕ
  player1_score : Option ℕ
  player2_score : Option ℕ
  player3_score : Option ℕ
  player4_score : Option ℕ
  queen_pocketed : Option Bool
  queen_covered : Option Bool
  last_pocketed_queen : Option Bool
  coins : Option (List SavedCoin)
  striker_pos : Option (ℚ × ℚ)
deriving DecidableEq

/-- `CarromGame.save_game` (source lines 1150-1177): returns the updated
in-memory state (`game_saved`, success message) and the snapshot written
to disk. -/
def save_game (s : GameState) : GameState × Snapshot :=
  ({ s with game_saved := true,
            turn_message := "Game saved successfully!" },
   { player_mode := some s.player_mode,
     current_theme := some s.current_theme,
     current_player := some s.current_player,
     player1_score := some s.player1_score,
     player2_score := some s.player2_score,
     player3_score := some s.player3_score,
     player4_score := some s.player4_score,
     queen_pocketed := some s.queen_pocketed,
     queen_covered := some s.queen_covered,
     last_pocketed_queen := some s.last_pocketed_queen,
     coins := some (s.coins.map (fun c =>
       { sx := c.phys.x, sy := c.phys.y, scolor := c.phys.color,
         squeen := c.phys.is_queen, spocketed := c.phys.is_pocketed })),
     striker_pos := some (s.striker.phys.x, s.striker.phys.y) })

/-- What `load_game` finds on disk: no save file at all, a file that
`pickle.load` cannot parse (the exception fires before `reset_game`),
or a parsed snapshot dictionary. -/
inductive LoadInput where
  | noFile
  | badPickle
  | ok (snap : Snapshot)
deriving DecidableEq

/-- Reading one field of the snapshot dictionary: a missing key raises
`KeyError`, modelled as `Except.error` carrying the state as mutated so
far (the source's `except` block keeps all mutations already made). -/
def applyField {α : Type} (s : GameState) (o : Option α)
    (upd : GameState → α → GameState) : Except GameState GameState :=
  match o with
  | none => Except.error s
  | some v => Except.ok (upd s v)

/-- Recreating the coin list from the persisted records (source lines
1207-1212); the fresh coins get random rotations `rot k`. -/
def mkLoadedCoins (rot : ℕ → ℚ) : ℕ → List SavedCoin → List Coin
  | _, [] => []
  | k, cd :: cds =>
      { (mkCoin cd.sx cd.sy cd.scolor cd.squeen (rot k)) with
          phys := { (mkCoin cd.sx cd.sy cd.scolor cd.squeen (rot k)).phys with
                      is_pocketed := cd.spocketed } } ::
      mkLoadedCoins rot (k + 1) cds

/-- The turn message of the `except` branch of `load_game`; the source
appends `str(e)`, whose exact text is abstracted away. -/
def loadErrorMessage : String := "Error loading game: "

/-- `CarromGame.load_game` (source lines 1179-1222).  With a parsed
snapshot the source first calls `reset_game()` and then assigns each
field in order; a missing key raises `KeyError` midway, and the
`except` block only sets the error message and returns to the start
screen, keeping the partially overwritten state — there is no rollback.
On success `game_state` becomes `PLAYING`. -/
def load_game (pos : ℕ → ℚ × ℚ) (rot : ℕ → ℚ) (s : GameState)
    (input : LoadInput) : GameState :=
  match input with
  | LoadInput.noFile => { s with turn_message := "No saved game found!" }
  | LoadInput.badPickle =>
      { s with turn_message := loadErrorMessage,
               game_state := START_SCREEN }
  | LoadInput.ok snap =>
      let r : Except GameState GameState := do
        let s0 := reset_game pos rot s
        let s1 ← applyField s0 snap.player_mode
          (fun t v => { t with player_mode := v })
        let s2 ← applyField s1 snap.current_theme
          (fun t v => { t with current_theme := v })
        let s3 ← applyField s2 snap.current_player
          (fun t v => { t with current_player := v })
        let s4 ← applyField s3 snap.player1_score
          (fun t v => { t with player1_score := v })
        let s5 ← applyField s4 snap.player2_score
          (fun t v => { t with player2_score := v })
        let s6 ← applyField s5 snap.player3_score
          (fun t v => { t with player3_score := v })
        let s7 ← applyField s6 snap.player4_score
          (fun t v => { t with player4_score := v })
        let s8 ← applyField s7 snap.queen_pocketed
          (fun t v => { t with queen_pocketed := v })
        let s9 ← applyField s8 snap.queen_covered
          (fun t v => { t with queen_covered := v })
        let s10 ← applyField s9 snap.last_pocketed_queen
          (fun t v => { t with last_pocketed_queen := v })
        let s11 ← applyField s10 snap.coins
          (fun t v => { t with coins := mkLoadedCoins rot 0 v })
        let s12 ← applyField s11 snap.striker_pos
          (fun t v => { t with striker :=
            { t.striker with phys :=
              { t.striker.phys with x := v.1, y := v.2 } } })
        pure s12
      match r with
      | Except.ok t =>
          { t with game_state := PLAYING,
                   turn_message := "Game loaded successfully!" }
      | Except.error t =>
          { t with turn_message := loadErrorMessage,
                   game_state := START_SCREEN }

/-! ### Concrete states used by witnesses and counterexamples -/

/-- The identity function as a concrete stand-in for the float square
root in closed evaluations (the theorems that depend on `sqrtq`
quantify over it). -/
def sqrtId : ℚ → ℚ := fun q => q

/-- Empty random draws. -/
def noNoise : TickNoise := { shot := [], coll := fun _ => [] }

/-- A concrete position oracle (the positions are irrelevant to the
rule engine). -/
def posEx : ℕ → ℚ × ℚ := fun _ => (400, 300)

/-- A concrete rotation oracle. -/
def rotEx : ℕ → ℚ := fun _ => 0

/-- A small concrete mid-game layout: the queen plus two white and two
black coins, all at rest and well separated. -/
def exCoins : List Coin :=
  [mkCoin 400 400 CColor.red true 0,
   mkCoin 200 200 CColor.white false 0,
   mkCoin 200 600 CColor.white false 0,
   mkCoin 600 200 CColor.black false 0,
   mkCoin 600 600 CColor.black false 0]

/-- A concrete in-play state: player 1 to move, everything at rest. -/
def baseState : GameState :=
  { player_mode := 2, current_theme := "Classic", game_state := PLAYING,
    striker := mkStriker 0, coins := exCoins,
    current_player := 1,
    player1_score := 0, player2_score := 0,
    player3_score := 0, player4_score := 0,
    queen_pocketed := false, queen_covered := false,
    last_pocketed_queen := false,
    foul_count := 0, winner := none, all_coins_still := true,
    turn_message := "", game_saved := false }

/-! ### Claim C3 -/

/-- Two non-pocketed regular coins with coincident centres. -/
def coincidentA : CoinPhys :=
  { x := 400, y := 400, velocity_x := 0, velocity_y := 0,
    radius := COIN_RADIUS, friction := 98/100,
    color := CColor.white, is_queen := false, is_pocketed := false }

/-- The second coincident coin. -/
def coincidentB : CoinPhys :=
  { x := 400, y := 400, velocity_x := 0, velocity_y := 0,
    radius := COIN_RADIUS, friction := 98/100,
    color := CColor.black, is_queen := false, is_pocketed := false }

/-- Claim C3: the claim states that `Coin.check_collision` is total and
special-cases a zero centre distance with an arbitrary separation
normal.  The code has no such special case: for coincident centres the
overlap test `distance < r1 + r2` passes (any float square root sends 0
to 0) and `nx = dx / distance` divides by zero, so the embedded
collision returns `none` (the `ZeroDivisionError`).  The claim
describes the spec's explicit totality requirement, which the code
violates — a code bug. -/
theorem C3_zeroDistance_divzero (sqrtq : ℚ → ℚ) (h0 : sqrtq 0 = 0) :
    physPairCollide sqrtq coincidentA coincidentB = none := by
  unfold physPairCollide coincidentA coincidentB
  norm_num [h0, COIN_RADIUS]

/-- Witness for C3 at the concrete square root `fun q => q`. -/
theorem C3_zeroDistance_witness :
    physPairCollide sqrtId coincidentA coincidentB = none :=
  C3_zeroDistance_divzero sqrtId rfl

/-! ### Claim C9 -/

/-- The wall clamp keeps (or restores) one axis coordinate inside the
playable band whenever the disc fits the board. -/
theorem clampAxis_mem (limit pos vel radius : ℚ)
    (h2 : 2 * radius ≤ limit - 2 * boardMargin) :
    boardMargin + radius ≤ (clampAxis limit pos vel radius).1 ∧
    (clampAxis limit pos vel radius).1 ≤ limit - boardMargin - radius := by
  unfold clampAxis
  split_ifs with ha hb <;> constructor <;> simp <;> linarith

/-- Claim C9: after one `Coin.update` of a non-pocketed disc (whose
diameter fits the board), the centre lies within
`board_margin + radius ≤ x ≤ SCREEN_WIDTH - board_margin - radius` and
likewise for `y`; the wall clamp restores containment from any starting
position and velocity. -/
theorem C9_boundaryContainment (sqrtq : ℚ → ℚ) (c : Coin)
    (hp : c.phys.is_pocketed = false)
    (hr : 2 * c.phys.radius ≤ BOARD_SIZE) :
    boardMargin + c.phys.radius ≤ (Coin.update sqrtq c).phys.x ∧
    (Coin.update sqrtq c).phys.x ≤ SCREEN_WIDTH - boardMargin - c.phys.radius ∧
    boardMargin + c.phys.radius ≤ (Coin.update sqrtq c).phys.y ∧
    (Coin.update sqrtq c).phys.y ≤ SCREEN_HEIGHT - boardMargin - c.phys.radius := by
  have hfit : 2 * c.phys.radius ≤ SCREEN_WIDTH - 2 * boardMargin := by
    have : SCREEN_WIDTH - 2 * boardMargin = BOARD_SIZE := by
      norm_num [SCREEN_WIDTH, BOARD_SIZE, boardMargin]
    rw [this]; exact hr
  have hfit2 : 2 * c.phys.radius ≤ SCREEN_HEIGHT - 2 * boardMargin := by
    have : SCREEN_HEIGHT = SCREEN_WIDTH := by norm_num [SCREEN_HEIGHT, SCREEN_WIDTH]
    rw [this]; exact hfit
  rw [Coin.update_phys]
  unfold physCoinUpdate
  rw [hp]
  simp only [Bool.false_eq_true, if_false]
  unfold physUpdate
  refine ⟨?_, ?_, ?_, ?_⟩
  · exact (clampAxis_mem SCREEN_WIDTH _ _ _ hfit).1
  · exact (clampAxis_mem SCREEN_WIDTH _ _ _ hfit).2
  · exact (clampAxis_mem SCREEN_HEIGHT _ _ _ hfit2).1
  · exact (clampAxis_mem SCREEN_HEIGHT _ _ _ hfit2).2

/-- Witness for C9: a striker-sized disc starting outside the playable
square is clamped back inside by one update. -/
theorem C9_boundaryContainment_witness :
    (mkCoin 50 750 CColor.white false 0).phys.is_pocketed = false ∧
    2 * (mkCoin 50 750 CColor.white false 0).phys.radius ≤ BOARD_SIZE ∧
    (boardMargin + (mkCoin 50 750 CColor.white false 0).phys.radius ≤
       (Coin.update sqrtId (mkCoin 50 750 CColor.white false 0)).phys.x ∧
     (Coin.update sqrtId (mkCoin 50 750 CColor.white false 0)).phys.x ≤
       SCREEN_WIDTH - boardMargin - (mkCoin 50 750 CColor.white false 0).phys.radius ∧
     boardMargin + (mkCoin 50 750 CColor.white false 0).phys.radius ≤
       (Coin.update sqrtId (mkCoin 50 750 CColor.white false 0)).phys.y ∧
     (Coin.update sqrtId (mkCoin 50 750 CColor.white false 0)).phys.y ≤
       SCREEN_HEIGHT - boardMargin - (mkCoin 50 750 CColor.white false 0).phys.radius) :=
  ⟨rfl, by norm_num [mkCoin, COIN_RADIUS, BOARD_SIZE],
   C9_boundaryContainment sqrtId (mkCoin 50 750 CColor.white false 0) rfl
     (by norm_num [mkCoin, COIN_RADIUS, BOARD_SIZE])⟩

/-! ### Claim C10 -/

theorem handleFoul_current_player (s : GameState) (msg : String) :
    (handleFoul s msg).current_player = 3 - s.current_player := rfl

theorem handleFoul_turn_message (s : GameState) (msg : String) :
    (handleFoul s msg).turn_message = msg := rfl

theorem handleFoul_foul_count (s : GameState) (msg : String) :
    (handleFoul s msg).foul_count = s.foul_count := rfl

theorem checkTurnEnd_current_player (s : GameState) :
    (checkTurnEnd s).current_player = 3 - s.current_player ∨
    ((checkTurnEnd s).current_player = s.current_player ∧ s.foul_count = 0) := by
  unfold checkTurnEnd
  split_ifs with h1 h2
  · exact Or.inl rfl
  · exact Or.inl rfl
  · exact Or.inr ⟨rfl, by omega⟩

/-- Claim C10: both turn-switching operations set
`current_player = 3 - current_player`, so a current player in `{1, 2}`
stays in `{1, 2}` after `handle_foul` and after `check_turn_end`,
whatever the configured player mode; players 3 and 4 never receive the
turn. -/
theorem C10_playerInvariant (s : GameState) (msg : String)
    (h : s.current_player = 1 ∨ s.current_player = 2) :
    (handleFoul s msg).current_player = 3 - s.current_player ∧
    ((handleFoul s msg).current_player = 1 ∨
     (handleFoul s msg).current_player = 2) ∧
    ((checkTurnEnd s).current_player = 1 ∨
     (checkTurnEnd s).current_player = 2) ∧
    (0 < s.foul_count →
      (checkTurnEnd s).current_player = 3 - s.current_player) := by
  have hf := handleFoul_current_player s msg
  have hswap : 3 - s.current_player = 1 ∨ 3 - s.current_player = 2 := by
    rcases h with h | h <;> rw [h] <;> simp
  refine ⟨hf, ?_, ?_, ?_⟩
  · rw [hf]; exact hswap
  · rcases checkTurnEnd_current_player s with hc | hc
    · rw [hc]; exact hswap
    · rw [hc.1]; exact h
  · intro hpos
    rcases checkTurnEnd_current_player s with hc | hc
    · exact hc
    · omega

/-- Witness for C10 at a concrete state with current player 1. -/
theorem C10_playerInvariant_witness :
    (baseState.current_player = 1 ∨ baseState.current_player = 2) ∧
    ((handleFoul baseState "foul").current_player = 3 - baseState.current_player ∧
     ((handleFoul baseState "foul").current_player = 1 ∨
      (handleFoul baseState "foul").current_player = 2) ∧
     ((checkTurnEnd baseState).current_player = 1 ∨
      (checkTurnEnd baseState).current_player = 2) ∧
     (0 < baseState.foul_count →
       (checkTurnEnd baseState).current_player = 3 - baseState.current_player)) :=
  ⟨Or.inl rfl, C10_playerInvariant baseState "foul" (Or.inl rfl)⟩

/-! ### Claim C5 -/

/-- Claim C5: pocketing a regular coin of the current player's own
colour with pending-queen-cover set awards exactly `score + 1 + 3`,
clears `last_pocketed_queen`, sets `queen_covered`, and resets
`foul_count` to 0; without pending-queen-cover it awards exactly
`score + 1` (and also resets the foul counter). -/
theorem C5_queenCoverScoring (s : GameState) (coin : Coin)
    (hq : coin.phys.is_queen = false) :
    (coin.phys.color = CColor.white → s.current_player = 1 →
      (s.last_pocketed_queen = true →
        (handlePocketedCoin s coin).player1_score = s.player1_score + 1 + 3 ∧
        (handlePocketedCoin s coin).last_pocketed_queen = false ∧
        (handlePocketedCoin s coin).queen_covered = true ∧
        (handlePocketedCoin s coin).foul_count = 0) ∧
      (s.last_pocketed_queen = false →
        (handlePocketedCoin s coin).player1_score = s.player1_score + 1 ∧
        (handlePocketedCoin s coin).foul_count = 0)) ∧
    (coin.phys.color = CColor.black → s.current_player = 2 →
      (s.last_pocketed_queen = true →
        (handlePocketedCoin s coin).player2_score = s.player2_score + 1 + 3 ∧
        (handlePocketedCoin s coin).last_pocketed_queen = false ∧
        (handlePocketedCoin s coin).queen_covered = true ∧
        (handlePocketedCoin s coin).foul_count = 0) ∧
      (s.last_pocketed_queen = false →
        (handlePocketedCoin s coin).player2_score = s.player2_score + 1 ∧
        (handlePocketedCoin s coin).foul_count = 0)) := by
  constructor
  · intro hw hp
    unfold handlePocketedCoin
    rw [hq]
    simp only [Bool.false_eq_true, if_false, hw, hp, and_self, if_true]
    constructor
    · intro hl
      simp [hl]
    · intro hl
      simp [hl]
  · intro hb hp
    unfold handlePocketedCoin
    rw [hq]
    have hbw : ¬(coin.phys.color = CColor.white ∧ s.current_player = 1) := by
      rw [hb, hp]; simp
    simp only [Bool.false_eq_true, if_false, hbw, hb, hp, and_self, if_true]
    constructor
    · intro hl
      simp [hl]
    · intro hl
      simp [hl]

/-- A pending-queen-cover state for the C5 witness. -/
def sC5 : GameState :=
  { baseState with queen_pocketed := true, last_pocketed_queen := true }

/-- A white coin for the C5 witness. -/
def whiteCoinEx : Coin := mkCoin 200 200 CColor.white false 0

/-- Witness for C5: player 1 covers the queen with a white coin and
scores exactly 1 + 3. -/
theorem C5_queenCoverScoring_witness :
    whiteCoinEx.phys.is_queen = false ∧
    whiteCoinEx.phys.color = CColor.white ∧ sC5.current_player = 1 ∧
    sC5.last_pocketed_queen = true ∧
    ((handlePocketedCoin sC5 whiteCoinEx).player1_score =
       sC5.player1_score + 1 + 3 ∧
     (handlePocketedCoin sC5 whiteCoinEx).last_pocketed_queen = false ∧
     (handlePocketedCoin sC5 whiteCoinEx).queen_covered = true ∧
     (handlePocketedCoin sC5 whiteCoinEx).foul_count = 0) :=
  ⟨rfl, rfl, rfl, rfl,
   ((C5_queenCoverScoring sC5 whiteCoinEx rfl).1 rfl rfl).1 rfl⟩

/-! ### Claim C6 -/

/-- Claim C6: a shot release increments the foul counter
(`handle_events`, lines 610-614); when the shot ends with no capture the
counter is still incremented at resolution, and `check_turn_end` then
forces a turn switch with the three-fouls message and resets the counter
to 0 when it has reached 3, and otherwise (counter now in 1..2) still
switches the turn immediately to the other player. -/
theorem C6_noCaptureFoul (s : GameState) (noise : List Particle) (vx vy : ℚ) :
    (2 ≤ s.foul_count →
      (checkTurnEnd (shotRelease noise vx vy s)).foul_count = 0 ∧
      (checkTurnEnd (shotRelease noise vx vy s)).current_player =
        3 - s.current_player ∧
      (checkTurnEnd (shotRelease noise vx vy s)).turn_message =
        "Player " ++ toString s.current_player ++
          " committed 3 consecutive fouls!") ∧
    (s.foul_count < 2 →
      (checkTurnEnd (shotRelease noise vx vy s)).foul_count = s.foul_count + 1 ∧
      (checkTurnEnd (shotRelease noise vx vy s)).current_player =
        3 - s.current_player ∧
      (checkTurnEnd (shotRelease noise vx vy s)).turn_message =
        "Player " ++ toString (3 - s.current_player) ++ "\x27s turn") := by
  constructor
  · intro h3
    have hge : (shotRelease noise vx vy s).foul_count ≥ 3 := by
      simp only [shotRelease]
      omega
    unfold checkTurnEnd
    rw [if_pos hge]
    exact ⟨rfl, rfl, rfl⟩
  · intro h2
    have hlt : ¬(shotRelease noise vx vy s).foul_count ≥ 3 := by
      simp only [shotRelease]
      omega
    have hgt : (shotRelease noise vx vy s).foul_count > 0 := by
      simp only [shotRelease]
      omega
    unfold checkTurnEnd
    rw [if_neg hlt, if_pos hgt]
    exact ⟨rfl, rfl, rfl⟩

/-- A two-fouls state for the C6 witness. -/
def sC6 : GameState := { baseState with foul_count := 2 }

/-- Witness for C6: releasing a third capture-free shot from a
two-fouls state forces the switch and resets the counter; from a fresh
state the turn also switches and the counter keeps the increment. -/
theorem C6_noCaptureFoul_witness :
    2 ≤ sC6.foul_count ∧
    ((checkTurnEnd (shotRelease [] 0 0 sC6)).foul_count = 0 ∧
     (checkTurnEnd (shotRelease [] 0 0 sC6)).current_player =
       3 - sC6.current_player ∧
     (checkTurnEnd (shotRelease [] 0 0 sC6)).turn_message =
       "Player " ++ toString sC6.current_player ++
         " committed 3 consecutive fouls!") ∧
    baseState.foul_count < 2 ∧
    ((checkTurnEnd (shotRelease [] 0 0 baseState)).foul_count =
       baseState.foul_count + 1 ∧
     (checkTurnEnd (shotRelease [] 0 0 baseState)).current_player =
       3 - baseState.current_player ∧
     (checkTurnEnd (shotRelease [] 0 0 baseState)).turn_message =
       "Player " ++ toString (3 - baseState.current_player) ++ "\x27s turn") :=
  ⟨by decide, (C6_noCaptureFoul sC6 [] 0 0).1 (by decide),
   by decide, (C6_noCaptureFoul baseState [] 0 0).2 (by decide)⟩

/-! ### Claim C7 -/

/-- A state in which only the (red) queen remains on the board: both the
white and the black count are zero. -/
def sC7 : GameState :=
  { baseState with coins := [mkCoin 400 400 CColor.red true 0] }

/-- Claim C7 counterexample: when the white and black counts reach zero
in the same tick, `check_game_over` sets the winner to player 1 (the
`white == 0` branch shadows the `black == 0` branch), so the claim's
symmetric clause "winner 2 when non-captured regular black discs reach
zero" fails. -/
theorem C7_gameOver_counterexample :
    blackCount sC7.coins = 0 ∧ whiteCount sC7.coins = 0 ∧
    (checkGameOver sC7).winner = some 1 ∧
    ¬(checkGameOver sC7).winner = some 2 := by decide

/-- Claim C7 (amended): after capture resolution, `check_game_over`
sets winner 1 and enters `GameOver` when no non-pocketed white coin
remains; when some white coin remains and no non-pocketed black coin
remains it sets winner 2 and enters `GameOver` (the white test takes
precedence); otherwise the state is unchanged; the red queen is counted
for neither side. -/
theorem C7_gameOver_amended (s : GameState) :
    (whiteCount s.coins = 0 →
      (checkGameOver s).winner = some 1 ∧
      (checkGameOver s).game_state = GAME_OVER) ∧
    (whiteCount s.coins ≠ 0 → blackCount s.coins = 0 →
      (checkGameOver s).winner = some 2 ∧
      (checkGameOver s).game_state = GAME_OVER) ∧
    (whiteCount s.coins ≠ 0 → blackCount s.coins ≠ 0 →
      checkGameOver s = s) ∧
    (∀ q : Coin, q.phys.color = CColor.red →
      whiteCount (q :: s.coins) = whiteCount s.coins ∧
      blackCount (q :: s.coins) = blackCount s.coins) := by
  refine ⟨?_, ?_, ?_, ?_⟩
  · intro hw
    unfold checkGameOver
    rw [if_pos hw]
    exact ⟨rfl, rfl⟩
  · intro hw hb
    unfold checkGameOver
    rw [if_neg hw, if_pos hb]
    exact ⟨rfl, rfl⟩
  · intro hw hb
    unfold checkGameOver
    rw [if_neg hw, if_neg hb]
  · intro q hq
    constructor
    · unfold whiteCount
      rw [List.filter_cons]
      simp [hq]
    · unfold blackCount
      rw [List.filter_cons]
      simp [hq]

/-- A state with one white coin left and no black coin, for the C7
witness. -/
def sC7w : GameState :=
  { baseState with coins := [mkCoin 200 200 CColor.white false 0,
                             mkCoin 400 400 CColor.red true 0] }

/-- Witness for the amended C7: with a white coin remaining and no
black coins, winner 2 is declared and the state machine enters
GameOver. -/
theorem C7_gameOver_witness :
    whiteCount sC7w.coins ≠ 0 ∧ blackCount sC7w.coins = 0 ∧
    ((checkGameOver sC7w).winner = some 2 ∧
     (checkGameOver sC7w).game_state = GAME_OVER) :=
  ⟨by decide, by decide,
   (C7_gameOver_amended sC7w).2.1 (by decide) (by decide)⟩

/-! ### Claim C2 -/

/-- A 4-player-mode state, player 2 to move, one foul on the counter,
with a pending uncovered queen (the queen coin pocketed). -/
def sC2 : GameState :=
  { baseState with
      player_mode := 4, current_player := 2, foul_count := 1,
      queen_pocketed := true, last_pocketed_queen := true,
      coins :=
        [{ (mkCoin 400 400 CColor.red true 0) with
             phys := { (mkCoin 400 400 CColor.red true 0).phys with
                         is_pocketed := true } },
         mkCoin 200 200 CColor.white false 0,
         mkCoin 600 600 CColor.black false 0] }

/-- Claim C2 counterexample: in 4-player mode with player 2 on strike,
pocketing the striker hands the turn to player `3 - 2 = 1` (a plain
toggle — no rotation to player 3), and the foul counter is left at its
previous value instead of being reset to 0. -/
theorem C2_strikerPocketed_counterexample :
    sC2.player_mode = 4 ∧ sC2.current_player = 2 ∧ sC2.foul_count = 1 ∧
    (handleStrikerPocketed sC2).current_player = 1 ∧
    ¬(handleStrikerPocketed sC2).current_player = 3 ∧
    (handleStrikerPocketed sC2).foul_count = 1 ∧
    ¬(handleStrikerPocketed sC2).foul_count = 0 := by decide

/-- Claim C2 (amended): when the striker is pocketed the engine records
the foul message "Striker pocketed!", returns a pending uncovered queen
to the board centre, sets `current_player` to `3 - current_player` (a
toggle between 1 and 2 in every player mode), clears the striker's
shooting flag, and leaves the consecutive-foul counter unchanged. -/
theorem C2_strikerPocketed_amended (s : GameState) :
    (handleStrikerPocketed s).turn_message = "Striker pocketed!" ∧
    (handleStrikerPocketed s).current_player = 3 - s.current_player ∧
    (handleStrikerPocketed s).foul_count = s.foul_count ∧
    (handleStrikerPocketed s).striker.is_shooting = false ∧
    (s.last_pocketed_queen = true → s.queen_covered = false →
      (handleStrikerPocketed s).coins = (returnQueenToCenter s.coins).1) ∧
    (s.last_pocketed_queen = false →
      (handleStrikerPocketed s).coins = s.coins) := by
  refine ⟨rfl, rfl, rfl, rfl, ?_, ?_⟩
  · intro hl hc
    unfold handleStrikerPocketed handleFoul
    simp [hl, hc]
  · intro hl
    unfold handleStrikerPocketed handleFoul
    simp [hl]

/-- Witness for the amended C2 at the concrete pending-queen state:
the queen coin is restored to the centre and the foul counter is
untouched. -/
theorem C2_strikerPocketed_witness :
    sC2.last_pocketed_queen = true ∧ sC2.queen_covered = false ∧
    ((handleStrikerPocketed sC2).turn_message = "Striker pocketed!" ∧
     (handleStrikerPocketed sC2).current_player = 3 - sC2.current_player ∧
     (handleStrikerPocketed sC2).foul_count = sC2.foul_count ∧
     (handleStrikerPocketed sC2).striker.is_shooting = false ∧
     (sC2.last_pocketed_queen = true → sC2.queen_covered = false →
       (handleStrikerPocketed sC2).coins = (returnQueenToCenter sC2.coins).1) ∧
     (sC2.last_pocketed_queen = false →
       (handleStrikerPocketed sC2).coins = sC2.coins)) :=
  ⟨rfl, rfl, C2_strikerPocketed_amended sC2⟩

/-! ### Claim C4 -/

/-- A snapshot dictionary with every key missing (a corrupt save
file). -/
def emptySnapshot : Snapshot :=
  { player_mode := none, current_theme := none, current_player := none,
    player1_score := none, player2_score := none, player3_score := none,
    player4_score := none, queen_pocketed := none, queen_covered := none,
    last_pocketed_queen := none, coins := none, striker_pos := none }

/-- An in-memory state with a nonzero score, about to attempt a
restore. -/
def sC4 : GameState := { baseState with player1_score := 5, player2_score := 3 }

/-- Claim C4 counterexample: restoring from a snapshot with missing
fields is NOT atomic — `load_game` calls `reset_game()` before reading
any field, so after the failed restore the scores are wiped (5 became
0), the coins are the fresh layout, and the game drops to the start
screen; the pre-restore in-memory state is lost. -/
theorem C4_loadAtomicity_counterexample :
    sC4.player1_score = 5 ∧ sC4.player2_score = 3 ∧
    (load_game posEx rotEx sC4 (LoadInput.ok emptySnapshot)).player1_score = 0 ∧
    (load_game posEx rotEx sC4 (LoadInput.ok emptySnapshot)).player2_score = 0 ∧
    (load_game posEx rotEx sC4 (LoadInput.ok emptySnapshot)).game_state =
      START_SCREEN := by decide

/-- Claim C4 (amended): a restore from a corrupt snapshot fails without
raising further, but not atomically: the match is first reset and the
snapshot fields are applied in order up to the first missing one, so a
snapshot whose first field is already missing leaves exactly the
freshly reset match with the error message and `game_state =
START_SCREEN`.  Only the missing-file case leaves the match untouched
(bar the message). -/
theorem C4_loadAtomicity_amended (pos : ℕ → ℚ × ℚ) (rot : ℕ → ℚ)
    (s : GameState) :
    load_game pos rot s (LoadInput.ok emptySnapshot) =
      { reset_game pos rot s with
          turn_message := loadErrorMessage,
          game_state := START_SCREEN } ∧
    load_game pos rot s LoadInput.noFile =
      { s with turn_message := "No saved game found!" } := by
  exact ⟨rfl, rfl⟩

/-! ### Claim C1 -/

/-- A state with two accumulated fouls (reached by two capture-free
shots from a fresh board), all discs at rest — a valid save point. -/
def sC1 : GameState := { baseState with foul_count := 2 }

/-- The state after saving (the uninterrupted run, no further inputs). -/
def sC1saved : GameState := (save_game sC1).1

/-- The state after loading the snapshot back. -/
def sC1loaded : GameState :=
  load_game posEx rotEx sC1saved (LoadInput.ok (save_game sC1).2)

/-- Claim C1 counterexample: `save_game` does not persist `foul_count`
and `load_game` resets it to 0, so after `load_game(save_game(s))` and
an identical (here: empty) subsequent input sequence the capture
sequences agree (both empty) and the scores, current player, queen
flags and winner agree, but the final foul counters differ (2 against
0) — the final `MatchState` is not identical. -/
theorem C1_roundTrip_counterexample :
    sC1saved.foul_count = 2 ∧ sC1loaded.foul_count = 0 ∧
    sC1loaded.current_player = sC1saved.current_player ∧
    sC1loaded.player1_score = sC1saved.player1_score ∧
    sC1loaded.player2_score = sC1saved.player2_score ∧
    sC1loaded.queen_pocketed = sC1saved.queen_pocketed ∧
    sC1loaded.queen_covered = sC1saved.queen_covered ∧
    sC1loaded.last_pocketed_queen = sC1saved.last_pocketed_queen ∧
    sC1loaded.winner = sC1saved.winner ∧
    ¬sC1loaded.foul_count = sC1saved.foul_count := by decide

theorem mkLoadedCoins_map (rot : ℕ → ℚ) (k : ℕ) (cds : List SavedCoin) :
    (mkLoadedCoins rot k cds).map
      (fun c => (c.phys.x, c.phys.y, c.phys.color,
                 c.phys.is_queen, c.phys.is_pocketed)) =
    cds.map (fun cd => (cd.sx, cd.sy, cd.scolor, cd.squeen, cd.spocketed)) := by
  induction cds generalizing k with
  | nil => rfl
  | cons cd cds ih => simp [mkLoadedCoins, mkCoin, ih]

/-- Claim C1 (amended): `restore(snapshot())` reproduces the persisted
part of the match state exactly — scores, current player, queen flags,
coin placement/pocketed flags and the striker position — but the foul
counter is not persisted and is reset to 0 by the load (and the winner
to `none`), so replay after a load matches the uninterrupted run only
when the foul counter at the save point was 0. -/
theorem C1_roundTrip_amended (pos : ℕ → ℚ × ℚ) (rot : ℕ → ℚ)
    (cur s : GameState) :
    (load_game pos rot cur (LoadInput.ok (save_game s).2)).player_mode =
      s.player_mode ∧
    (load_game pos rot cur (LoadInput.ok (save_game s).2)).current_theme =
      s.current_theme ∧
    (load_game pos rot cur (LoadInput.ok (save_game s).2)).current_player =
      s.current_player ∧
    (load_game pos rot cur (LoadInput.ok (save_game s).2)).player1_score =
      s.player1_score ∧
    (load_game pos rot cur (LoadInput.ok (save_game s).2)).player2_score =
      s.player2_score ∧
    (load_game pos rot cur (LoadInput.ok (save_game s).2)).player3_score =
      s.player3_score ∧
    (load_game pos rot cur (LoadInput.ok (save_game s).2)).player4_score =
      s.player4_score ∧
    (load_game pos rot cur (LoadInput.ok (save_game s).2)).queen_pocketed =
      s.queen_pocketed ∧
    (load_game pos rot cur (LoadInput.ok (save_game s).2)).queen_covered =
      s.queen_covered ∧
    (load_game pos rot cur (LoadInput.ok (save_game s).2)).last_pocketed_queen =
      s.last_pocketed_queen ∧
    (load_game pos rot cur (LoadInput.ok (save_game s).2)).foul_count = 0 ∧
    (load_game pos rot cur (LoadInput.ok (save_game s).2)).winner = none ∧
    (load_game pos rot cur (LoadInput.ok (save_game s).2)).game_state =
      PLAYING ∧
    (load_game pos rot cur (LoadInput.ok (save_game s).2)).coins.map
        (fun c => (c.phys.x, c.phys.y, c.phys.color,
                   c.phys.is_queen, c.phys.is_pocketed)) =
      s.coins.map (fun c => (c.phys.x, c.phys.y, c.phys.color,
                             c.phys.is_queen, c.phys.is_pocketed)) ∧
    (load_game pos rot cur (LoadInput.ok (save_game s).2)).striker.phys.x =
      s.striker.phys.x ∧
    (load_game pos rot cur (LoadInput.ok (save_game s).2)).striker.phys.y =
      s.striker.phys.y := by
  refine ⟨rfl, rfl, rfl, rfl, rfl, rfl, rfl, rfl, rfl, rfl, rfl, rfl, rfl,
          ?_, rfl, rfl⟩
  show (mkLoadedCoins rot 0 (s.coins.map _)).map _ = s.coins.map _
  rw [mkLoadedCoins_map, List.map_map]
  rfl

/-! ### Claim C8: the cosmetics-free projected system

The projection erases exactly the randomness-fed cosmetic data: the
`rotation` of every disc and the striker's particle list.  Every
function of the tick is mirrored on the projected state, and each
mirrored function is proved to simulate the full one; determinism of
the capture sequence with respect to the cosmetic randomness follows. -/

/-- The striker without its cosmetic fields. -/
structure StrikerP where
  phys : CoinPhys
  is_positioned : Bool
  is_aiming : Bool
  aim_angle : ℚ
  power : ℚ
  max_power : ℚ
  is_shooting : Bool
  strike_sound_played : Bool
deriving DecidableEq

/-- Erase the striker's rotation and particles. -/
def Striker.proj (s : Striker) : StrikerP :=
  { phys := s.phys, is_positioned := s.is_positioned,
    is_aiming := s.is_aiming, aim_angle := s.aim_angle,
    power := s.power, max_power := s.max_power,
    is_shooting := s.is_shooting,
    strike_sound_played := s.strike_sound_played }

/-- The game state with every cosmetic field erased. -/
structure GameStateP where
  player_mode : ℕ
  current_theme : String
  game_state : ℕ
  striker : StrikerP
  coins : List CoinPhys
  current_player : ℕ
  player1_score : ℕ
  player2_score : ℕ
  player3_score : ℕ
  player4_score : ℕ
  queen_pocketed : Bool
  queen_covered : Bool
  last_pocketed_queen : Bool
  foul_count : ℕ
  winner : Option ℕ
  all_coins_still : Bool
  turn_message : String
  game_saved : Bool
deriving DecidableEq

/-- Erase all cosmetic fields of the game state. -/
def GameState.proj (s : GameState) : GameStateP :=
  { player_mode := s.player_mode, current_theme := s.current_theme,
    game_state := s.game_state, striker := s.striker.proj,
    coins := s.coins.map Coin.phys, current_player := s.current_player,
    player1_score := s.player1_score, player2_score := s.player2_score,
    player3_score := s.player3_score, player4_score := s.player4_score,
    queen_pocketed := s.queen_pocketed, queen_covered := s.queen_covered,
    last_pocketed_queen := s.last_pocketed_queen,
    foul_count := s.foul_count, winner := s.winner,
    all_coins_still := s.all_coins_still,
    turn_message := s.turn_message, game_saved := s.game_saved }

/-- Projected `Striker.update`. -/
def StrikerP.update (s : StrikerP) : StrikerP :=
  { s with
      phys := physCoinUpdate s.phys,
      strike_sound_played :=
        if (physCoinUpdate s.phys).velocity_x = 0 ∧
           (physCoinUpdate s.phys).velocity_y = 0 then false
        else s.strike_sound_played }

/-- Projected striker-vs-coin collision (no particle spawn). -/
def StrikerP.check_collision (sqrtq : ℚ → ℚ) (s : StrikerP) (b : CoinPhys) :
    Option (StrikerP × CoinPhys) :=
  match physPairCollide sqrtq s.phys b with
  | none => none
  | some (pa, pb, _) => some ({ s with phys := pa }, pb)

/-- Projected inner collision loop. -/
def coinVsRestP (sqrtq : ℚ → ℚ) (c : CoinPhys) :
    List CoinPhys → Option (CoinPhys × List CoinPhys)
  | [] => some (c, [])
  | d :: ds =>
      let step : Option (CoinPhys × CoinPhys) :=
        if ¬c.is_pocketed ∧ ¬d.is_pocketed then
          match physPairCollide sqrtq c d with
          | none => none
          | some (c2, d2, _) => some (c2, d2)
        else some (c, d)
      match step with
      | none => none
      | some (c2, d2) =>
          match coinVsRestP sqrtq c2 ds with
          | none => none
          | some (c3, ds2) => some (c3, d2 :: ds2)

/-- Projected outer collision loop. -/
def collideLoopP (sqrtq : ℚ → ℚ) :
    ℕ → StrikerP → List CoinPhys → Option (StrikerP × List CoinPhys)
  | 0, s, cs => some (s, cs)
  | _ + 1, s, [] => some (s, [])
  | fuel + 1, s, c :: rest =>
      let first : Option (StrikerP × CoinPhys) :=
        if ¬c.is_pocketed then StrikerP.check_collision sqrtq s c
        else some (s, c)
      match first with
      | none => none
      | some (s1, c1) =>
          match coinVsRestP sqrtq c1 rest with
          | none => none
          | some (c2, rest2) =>
              match collideLoopP sqrtq fuel s1 rest2 with
              | none => none
              | some (s2, rest3) => some (s2, c2 :: rest3)

/-- Projected `Striker.reset_position`. -/
def StrikerP.reset_position (s : StrikerP) (player : ℕ) : StrikerP :=
  { s with
      phys :=
        { s.phys with
            velocity_x := 0, velocity_y := 0,
            x := SCREEN_WIDTH / 2,
            y := if player = 1 then SCREEN_HEIGHT - boardMargin - 50
                 else boardMargin + 50,
            is_pocketed := false },
      is_positioned := false, is_aiming := false,
      is_shooting := false, power := 0 }

/-- Projected queen return. -/
def returnQueenToCenterP : List CoinPhys → List CoinPhys × Bool
  | [] => ([], false)
  | c :: cs =>
      if c.is_queen then
        ({ c with is_pocketed := false,
                  x := SCREEN_WIDTH / 2, y := SCREEN_HEIGHT / 2 } :: cs,
         true)
      else
        let r := returnQueenToCenterP cs
        (c :: r.1, r.2)

/-- Projected `handle_foul`. -/
def handleFoulP (s : GameStateP) (message : String) : GameStateP :=
  { s with
      turn_message := message,
      coins :=
        if s.last_pocketed_queen ∧ ¬s.queen_covered then
          (returnQueenToCenterP s.coins).1
        else s.coins,
      last_pocketed_queen :=
        if s.last_pocketed_queen ∧ ¬s.queen_covered then
          (if (returnQueenToCenterP s.coins).2 then false
           else s.last_pocketed_queen)
        else s.last_pocketed_queen,
      current_player := 3 - s.current_player,
      striker := StrikerP.reset_position s.striker (3 - s.current_player) }

/-- Projected `handle_pocketed_coin`. -/
def handlePocketedCoinP (s : GameStateP) (coin : CoinPhys) : GameStateP :=
  if coin.is_queen then
    { s with queen_pocketed := true, last_pocketed_queen := true,
             turn_message := "Player " ++ toString s.current_player ++
               " pocketed the Queen! Must cover it.",
             foul_count := 0 }
  else if coin.color = CColor.white ∧ s.current_player = 1 then
    let s1 := { s with player1_score := s.player1_score + 1,
                       turn_message := "Player 1 pocketed a white coin!",
                       foul_count := 0 }
    if s.last_pocketed_queen then
      { s1 with queen_covered := true,
                player1_score := s1.player1_score + 3,
                turn_message := "Player 1 covered the Queen! +3 points",
                last_pocketed_queen := false }
    else s1
  else if coin.color = CColor.black ∧ s.current_player = 2 then
    let s1 := { s with player2_score := s.player2_score + 1,
                       turn_message := "Player 2 pocketed a black coin!",
                       foul_count := 0 }
    if s.last_pocketed_queen then
      { s1 with queen_covered := true,
                player2_score := s1.player2_score + 3,
                turn_message := "Player 2 covered the Queen! +3 points",
                last_pocketed_queen := false }
    else s1
  else
    handleFoulP s ("Player " ++ toString s.current_player ++
      " pocketed opponent\x27s coin!")

/-- Projected `check_turn_end`. -/
def checkTurnEndP (s : GameStateP) : GameStateP :=
  if s.foul_count ≥ 3 then
    let s1 := handleFoulP s ("Player " ++ toString s.current_player ++
      " committed 3 consecutive fouls!")
    { s1 with foul_count := 0 }
  else if s.foul_count > 0 then
    let p := 3 - s.current_player
    { s with current_player := p,
             striker := StrikerP.reset_position s.striker p,
             turn_message := "Player " ++ toString p ++ "\x27s turn" }
  else s

/-- Projected white count. -/
def whiteCountP (cs : List CoinPhys) : ℕ :=
  (cs.filter (fun c =>
    decide (c.is_pocketed = false ∧ c.color = CColor.white))).length

/-- Projected black count. -/
def blackCountP (cs : List CoinPhys) : ℕ :=
  (cs.filter (fun c =>
    decide (c.is_pocketed = false ∧ c.color = CColor.black))).length

/-- Projected `check_game_over`. -/
def checkGameOverP (s : GameStateP) : GameStateP :=
  if whiteCountP s.coins = 0 then
    { s with winner := some 1, game_state := GAME_OVER }
  else if blackCountP s.coins = 0 then
    { s with winner := some 2, game_state := GAME_OVER }
  else s

/-- Projected striker-pocketed branch. -/
def handleStrikerPocketedP (s : GameStateP) : GameStateP :=
  let s1 := handleFoulP s "Striker pocketed!"
  { s1 with striker := { s1.striker with is_shooting := false } }

/-- Projected pocket loop. -/
def pocketStepP (sqrtq : ℚ → ℚ) (i : ℕ) (s : GameStateP) (c : CoinPhys) : GameStateP :=
  if (checkPocketP sqrtq c).2 then
    handlePocketedCoinP
      { s with coins := s.coins.set i (checkPocketP sqrtq c).1 }
      (checkPocketP sqrtq c).1
  else
    { s with coins := s.coins.set i (checkPocketP sqrtq c).1 }

def pocketLoopP (sqrtq : ℚ → ℚ) : ℕ → ℕ → GameStateP → GameStateP × List ℕ
  | 0, _, s => (s, [])
  | n + 1, i, s =>
      match s.coins[i]? with
      | none => (s, [])
      | some c =>
          let r := pocketLoopP sqrtq n (i + 1) (pocketStepP sqrtq i s c)
          (r.1, if (checkPocketP sqrtq c).2 then i :: r.2 else r.2)

/-- Projected all-at-rest test. -/
def allStillP (striker : StrikerP) (cs : List CoinPhys) : Bool :=
  (decide (striker.phys.velocity_x = 0 ∧ striker.phys.velocity_y = 0)) &&
  cs.all (fun c =>
    c.is_pocketed ||
    decide (c.velocity_x = 0 ∧ c.velocity_y = 0))

/-- Projected tick tail. -/
def resolveTickP (sqrtq : ℚ → ℚ) (s : GameStateP) : GameStateP × List ℕ :=
  let pr := pocketLoopP sqrtq s.coins.length 0 s
  let s2 := pr.1
  let still := allStillP s2.striker s2.coins
  let s3 := { s2 with all_coins_still := still }
  let s4 :=
    if still && s3.striker.is_shooting then
      checkTurnEndP
        { s3 with striker := { s3.striker with is_shooting := false } }
    else s3
  (checkGameOverP s4, pr.2)

/-- Projected `CarromGame.update`: the same tick with no random inputs
at all. -/
def gameUpdateP (sqrtq : ℚ → ℚ) (s : GameStateP) :
    Option (GameStateP × Bool × List ℕ) :=
  if s.game_state ≠ PLAYING then some (s, false, [])
  else
    let st := StrikerP.update s.striker
    let pk := checkPocketP sqrtq st.phys
    if pk.2 then
      some (handleStrikerPocketedP { s with striker := { st with phys := pk.1 } },
            true, [])
    else
      let coins := s.coins.map physCoinUpdate
      match collideLoopP sqrtq coins.length st coins with
      | none => none
      | some (st2, coins2) =>
          let r := resolveTickP sqrtq { s with striker := st2, coins := coins2 }
          some (r.1, false, r.2)

/-- Projected shot. -/
def StrikerP.shoot (vx vy : ℚ) (s : StrikerP) : StrikerP :=
  { s with
      phys := { s.phys with velocity_x := vx, velocity_y := vy },
      is_shooting := true, is_positioned := false, is_aiming := false }

/-- Projected shot release. -/
def shotReleaseP (vx vy : ℚ) (s : GameStateP) : GameStateP :=
  { s with striker := StrikerP.shoot vx vy s.striker,
           foul_count := s.foul_count + 1 }

/-- Projected frame. -/
def gameTickP (sqrtq : ℚ → ℚ) (inp : Option (ℚ × ℚ)) (s : GameStateP) :
    Option (GameStateP × Bool × List ℕ) :=
  let s1 :=
    match inp with
    | some v => shotReleaseP v.1 v.2 s
    | none => s
  gameUpdateP sqrtq s1

/-- Projected run. -/
def runGameP (sqrtq : ℚ → ℚ) :
    List (Option (ℚ × ℚ)) → GameStateP →
    Option (GameStateP × List (Bool × List ℕ))
  | [], s => some (s, [])
  | inp :: rest, s =>
      match gameTickP sqrtq inp s with
      | none => none
      | some (s1, ev) =>
          match runGameP sqrtq rest s1 with
          | none => none
          | some (s2, evs) => some (s2, ev :: evs)

/-! ### Simulation lemmas: the projection commutes with every tick
stage, so nothing physical ever depends on the cosmetic randomness. -/

theorem Striker.proj_phys (s : Striker) : s.proj.phys = s.phys := rfl

theorem Striker.update_proj (sqrtq : ℚ → ℚ) (s : Striker) :
    (Striker.update sqrtq s).proj = StrikerP.update s.proj := by
  unfold Striker.update StrikerP.update
  simp only [Striker.proj]
  rw [Coin.update_phys]

theorem Striker.check_collision_proj (sqrtq : ℚ → ℚ) (noise : List Particle)
    (s : Striker) (b : Coin) :
    (Striker.check_collision sqrtq noise s b).map
        (fun r => (r.1.proj, r.2.phys)) =
    StrikerP.check_collision sqrtq s.proj b.phys := by
  unfold Striker.check_collision StrikerP.check_collision
  rw [Striker.proj_phys]
  cases h : physPairCollide sqrtq s.phys b.phys with
  | none => rfl
  | some r =>
      rcases r with ⟨pa, pb, ropt⟩
      dsimp only
      cases ropt with
      | none => simp [Striker.proj]
      | some impact =>
          dsimp only
          split_ifs <;> simp [Striker.proj]

theorem coinVsRest_proj (sqrtq : ℚ → ℚ) (c : Coin) (cs : List Coin) :
    (coinVsRest sqrtq c cs).map
        (fun r => (r.1.phys, r.2.map Coin.phys)) =
    coinVsRestP sqrtq c.phys (cs.map Coin.phys) := by
  induction cs generalizing c with
  | nil => rfl
  | cons d ds ih =>
      unfold coinVsRest coinVsRestP Coin.check_collision
      simp only [List.map_cons]
      by_cases hg : ¬c.phys.is_pocketed ∧ ¬d.phys.is_pocketed
      · rw [if_pos hg, if_pos hg]
        cases h : physPairCollide sqrtq c.phys d.phys with
        | none => rfl
        | some r =>
            rcases r with ⟨pa, pb, ropt⟩
            dsimp only
            have ih2 := ih { c with phys := pa }
            dsimp only at ih2
            rw [← ih2]
            cases hrec : coinVsRest sqrtq { c with phys := pa } ds with
            | none => rfl
            | some rr => rfl
      · rw [if_neg hg, if_neg hg]
        dsimp only
        have ih2 := ih c
        rw [← ih2]
        cases hrec : coinVsRest sqrtq c ds with
        | none => rfl
        | some rr => rfl

theorem collideLoop_proj (sqrtq : ℚ → ℚ) (noise : ℕ → List Particle)
    (fuel : ℕ) :
    ∀ (idx : ℕ) (s : Striker) (cs : List Coin),
    (collideLoop sqrtq noise fuel idx s cs).map
        (fun r => (r.1.proj, r.2.map Coin.phys)) =
    collideLoopP sqrtq fuel s.proj (cs.map Coin.phys) := by
  induction fuel with
  | zero => intro idx s cs; rfl
  | succ fuel ih =>
      intro idx s cs
      cases cs with
      | nil => rfl
      | cons c rest =>
          unfold collideLoop collideLoopP
          simp only [List.map_cons]
          have hfirst :
              (if ¬c.phys.is_pocketed then
                  StrikerP.check_collision sqrtq s.proj c.phys
                else some (s.proj, c.phys)) =
              (if ¬c.phys.is_pocketed then
                  Striker.check_collision sqrtq (noise idx) s c
                else some (s, c)).map (fun r => (r.1.proj, r.2.phys)) := by
            by_cases hp : ¬c.phys.is_pocketed
            · rw [if_pos hp, if_pos hp, Striker.check_collision_proj]
            · rw [if_neg hp, if_neg hp]; rfl
          rw [hfirst]
          cases h1 : (if ¬c.phys.is_pocketed then
              Striker.check_collision sqrtq (noise idx) s c
            else some (s, c)) with
          | none => rfl
          | some sc =>
              rcases sc with ⟨s1, c1⟩
              simp only [Option.map_some']
              rw [← coinVsRest_proj sqrtq c1 rest]
              cases hrec : coinVsRest sqrtq c1 rest with
              | none => rfl
              | some rr =>
                  rcases rr with ⟨c2, rest2⟩
                  simp only [Option.map_some']
                  rw [← ih (idx + 1) s1 rest2]
                  cases hrec2 : collideLoop sqrtq noise fuel (idx + 1) s1 rest2 with
                  | none => rfl
                  | some r3 => rfl

theorem Striker.reset_position_proj (s : Striker) (p : ℕ) :
    (Striker.reset_position s p).proj = StrikerP.reset_position s.proj p := rfl

theorem returnQueenToCenter_proj_fst (cs : List Coin) :
    (returnQueenToCenter cs).1.map Coin.phys =
    (returnQueenToCenterP (cs.map Coin.phys)).1 := by
  induction cs with
  | nil => rfl
  | cons c cs ih =>
      unfold returnQueenToCenter returnQueenToCenterP
      simp only [List.map_cons]
      by_cases hq : c.phys.is_queen = true
      · rw [if_pos hq, if_pos hq]
        rfl
      · rw [if_neg hq, if_neg hq]
        simp only [List.map_cons]
        rw [← ih]

theorem returnQueenToCenter_proj_snd (cs : List Coin) :
    (returnQueenToCenter cs).2 = (returnQueenToCenterP (cs.map Coin.phys)).2 := by
  induction cs with
  | nil => rfl
  | cons c cs ih =>
      unfold returnQueenToCenter returnQueenToCenterP
      simp only [List.map_cons]
      by_cases hq : c.phys.is_queen = true
      · rw [if_pos hq, if_pos hq]
      · rw [if_neg hq, if_neg hq]
        exact ih

theorem GameState.proj_coins (s : GameState) :
    s.proj.coins = s.coins.map Coin.phys := rfl

theorem handleFoul_proj (s : GameState) (m : String) :
    (handleFoul s m).proj = handleFoulP s.proj m := by
  unfold handleFoul handleFoulP
  unfold GameState.proj
  simp only [Striker.reset_position_proj]
  congr 1
  · rw [apply_ite (List.map Coin.phys), returnQueenToCenter_proj_fst]
  · rw [returnQueenToCenter_proj_snd]

theorem handlePocketedCoin_proj (s : GameState) (c : Coin) :
    (handlePocketedCoin s c).proj = handlePocketedCoinP s.proj c.phys := by
  unfold handlePocketedCoin handlePocketedCoinP
  by_cases hq : c.phys.is_queen = true
  · rw [if_pos hq, if_pos hq]
    rfl
  · rw [if_neg hq, if_neg hq]
    by_cases hw : c.phys.color = CColor.white ∧ s.current_player = 1
    · have hw2 : c.phys.color = CColor.white ∧ s.proj.current_player = 1 := hw
      rw [if_pos hw, if_pos hw2]
      by_cases hl : s.last_pocketed_queen = true
      · have hl2 : s.proj.last_pocketed_queen = true := hl
        rw [if_pos hl, if_pos hl2]
        rfl
      · have hl2 : ¬s.proj.last_pocketed_queen = true := hl
        rw [if_neg hl, if_neg hl2]
        rfl
    · have hw2 : ¬(c.phys.color = CColor.white ∧ s.proj.current_player = 1) := hw
      rw [if_neg hw, if_neg hw2]
      by_cases hb : c.phys.color = CColor.black ∧ s.current_player = 2
      · have hb2 : c.phys.color = CColor.black ∧ s.proj.current_player = 2 := hb
        rw [if_pos hb, if_pos hb2]
        by_cases hl : s.last_pocketed_queen = true
        · have hl2 : s.proj.last_pocketed_queen = true := hl
          rw [if_pos hl, if_pos hl2]
          rfl
        · have hl2 : ¬s.proj.last_pocketed_queen = true := hl
          rw [if_neg hl, if_neg hl2]
          rfl
      · have hb2 : ¬(c.phys.color = CColor.black ∧ s.proj.current_player = 2) := hb
        rw [if_neg hb, if_neg hb2]
        exact handleFoul_proj s _

theorem proj_set_foul (s : GameState) (n : ℕ) :
    ({ s with foul_count := n } : GameState).proj =
    { s.proj with foul_count := n } := rfl

theorem checkTurnEnd_proj (s : GameState) :
    (checkTurnEnd s).proj = checkTurnEndP s.proj := by
  unfold checkTurnEnd checkTurnEndP
  by_cases h3 : s.foul_count ≥ 3
  · have h3p : s.proj.foul_count ≥ 3 := h3
    rw [if_pos h3, if_pos h3p]
    show ({ handleFoul s _ with foul_count := 0 } : GameState).proj = _
    rw [proj_set_foul, handleFoul_proj]
    rfl
  · have h3p : ¬s.proj.foul_count ≥ 3 := h3
    rw [if_neg h3, if_neg h3p]
    by_cases h0 : s.foul_count > 0
    · have h0p : s.proj.foul_count > 0 := h0
      rw [if_pos h0, if_pos h0p]
      rfl
    · have h0p : ¬s.proj.foul_count > 0 := h0
      rw [if_neg h0, if_neg h0p]

theorem whiteCount_map (cs : List Coin) :
    whiteCountP (cs.map Coin.phys) = whiteCount cs := by
  unfold whiteCount whiteCountP
  rw [List.filter_map, List.length_map]
  rfl

theorem blackCount_map (cs : List Coin) :
    blackCountP (cs.map Coin.phys) = blackCount cs := by
  unfold blackCount blackCountP
  rw [List.filter_map, List.length_map]
  rfl

theorem checkGameOver_proj (s : GameState) :
    (checkGameOver s).proj = checkGameOverP s.proj := by
  unfold checkGameOver checkGameOverP
  rw [GameState.proj_coins, whiteCount_map, blackCount_map]
  by_cases hw : whiteCount s.coins = 0
  · rw [if_pos hw, if_pos hw]
    rfl
  · rw [if_neg hw, if_neg hw]
    by_cases hb : blackCount s.coins = 0
    · rw [if_pos hb, if_pos hb]
      rfl
    · rw [if_neg hb, if_neg hb]

theorem proj_set_shooting_false (s : GameState) :
    ({ s with striker := { s.striker with is_shooting := false } } : GameState).proj =
    { s.proj with striker := { s.proj.striker with is_shooting := false } } := rfl

theorem handleStrikerPocketed_proj (s : GameState) :
    (handleStrikerPocketed s).proj = handleStrikerPocketedP s.proj := by
  unfold handleStrikerPocketed handleStrikerPocketedP
  show ({ handleFoul s _ with striker := _ } : GameState).proj = _
  rw [proj_set_shooting_false, handleFoul_proj]

theorem List_all_map_phys (cs : List Coin) (p : CoinPhys → Bool) :
    (cs.map Coin.phys).all p = cs.all (fun c => p c.phys) := by
  induction cs with
  | nil => rfl
  | cons c cs ih => simp [ih]

theorem allStill_proj (st : Striker) (cs : List Coin) :
    allStillP st.proj (cs.map Coin.phys) = allStill st cs := by
  unfold allStill allStillP
  rw [List_all_map_phys]
  rfl

theorem proj_set_coins_set (s : GameState) (i : ℕ) (c : Coin) :
    ({ s with coins := s.coins.set i c } : GameState).proj =
    { s.proj with coins := s.proj.coins.set i c.phys } := by
  unfold GameState.proj
  simp [List.map_set]

theorem pocketStep_proj (sqrtq : ℚ → ℚ) (i : ℕ) (s : GameState) (c : Coin) :
    (pocketStep sqrtq i s c).proj = pocketStepP sqrtq i s.proj c.phys := by
  unfold pocketStep pocketStepP
  by_cases hcap : (checkPocketP sqrtq c.phys).2 = true
  · rw [if_pos hcap, if_pos hcap, handlePocketedCoin_proj, proj_set_coins_set]
  · rw [if_neg hcap, if_neg hcap, proj_set_coins_set]

theorem pocketLoop_proj (sqrtq : ℚ → ℚ) (n : ℕ) :
    ∀ (i : ℕ) (s : GameState),
    (pocketLoop sqrtq n i s).1.proj = (pocketLoopP sqrtq n i s.proj).1 ∧
    (pocketLoop sqrtq n i s).2 = (pocketLoopP sqrtq n i s.proj).2 := by
  induction n with
  | zero => intro i s; exact ⟨rfl, rfl⟩
  | succ n ih =>
      intro i s
      unfold pocketLoop pocketLoopP
      rw [GameState.proj_coins, List.getElem?_map]
      cases hc : s.coins[i]? with
      | none => exact ⟨rfl, rfl⟩
      | some c =>
          simp only [Option.map_some']
          refine ⟨?_, ?_⟩
          · show (pocketLoop sqrtq n (i + 1) (pocketStep sqrtq i s c)).1.proj =
              (pocketLoopP sqrtq n (i + 1) (pocketStepP sqrtq i s.proj c.phys)).1
            rw [(ih (i + 1) (pocketStep sqrtq i s c)).1, pocketStep_proj]
          · show (if (checkPocketP sqrtq c.phys).2 then
                i :: (pocketLoop sqrtq n (i + 1) (pocketStep sqrtq i s c)).2
              else (pocketLoop sqrtq n (i + 1) (pocketStep sqrtq i s c)).2) =
              (if (checkPocketP sqrtq c.phys).2 then
                i :: (pocketLoopP sqrtq n (i + 1) (pocketStepP sqrtq i s.proj c.phys)).2
              else (pocketLoopP sqrtq n (i + 1) (pocketStepP sqrtq i s.proj c.phys)).2)
            rw [(ih (i + 1) (pocketStep sqrtq i s c)).2, pocketStep_proj]

theorem proj_set_still (s : GameState) (b : Bool) :
    ({ s with all_coins_still := b } : GameState).proj =
    { s.proj with all_coins_still := b } := rfl

theorem stillFlag_proj (t : GameState) :
    allStillP t.proj.striker t.proj.coins = allStill t.striker t.coins := by
  show allStillP t.striker.proj (t.coins.map Coin.phys) = _
  exact allStill_proj t.striker t.coins

theorem proj_striker_is_shooting (t : GameState) :
    t.proj.striker.is_shooting = t.striker.is_shooting := rfl

theorem resolveTick_proj (sqrtq : ℚ → ℚ) (s : GameState) :
    (resolveTick sqrtq s).1.proj = (resolveTickP sqrtq s.proj).1 ∧
    (resolveTick sqrtq s).2 = (resolveTickP sqrtq s.proj).2 := by
  unfold resolveTick resolveTickP
  dsimp only
  rw [GameState.proj_coins, List.length_map]
  obtain ⟨h1, h2⟩ := pocketLoop_proj sqrtq s.coins.length 0 s
  refine ⟨?_, h2⟩
  rw [← h1, stillFlag_proj, proj_striker_is_shooting]
  rw [checkGameOver_proj]
  apply congrArg checkGameOverP
  by_cases hcond : (allStill (pocketLoop sqrtq s.coins.length 0 s).1.striker
      (pocketLoop sqrtq s.coins.length 0 s).1.coins &&
      (pocketLoop sqrtq s.coins.length 0 s).1.striker.is_shooting) = true
  · rw [if_pos hcond, if_pos hcond, checkTurnEnd_proj]
    rfl
  · rw [if_neg hcond, if_neg hcond]
    rfl

theorem coins_update_proj (sqrtq : ℚ → ℚ) (cs : List Coin) :
    (cs.map (Coin.update sqrtq)).map Coin.phys =
    (cs.map Coin.phys).map physCoinUpdate := by
  rw [List.map_map, List.map_map]
  congr 1
  funext c
  exact Coin.update_phys sqrtq c

theorem gameUpdate_proj (sqrtq : ℚ → ℚ) (noise : ℕ → List Particle)
    (s : GameState) :
    (gameUpdate sqrtq noise s).map (fun r => (r.1.proj, r.2)) =
    gameUpdateP sqrtq s.proj := by
  unfold gameUpdate gameUpdateP
  by_cases hgs : s.game_state ≠ PLAYING
  · have hgs2 : s.proj.game_state ≠ PLAYING := hgs
    rw [if_pos hgs, if_pos hgs2]
    rfl
  · have hgs2 : ¬s.proj.game_state ≠ PLAYING := hgs
    rw [if_neg hgs, if_neg hgs2]
    dsimp only
    rw [show StrikerP.update s.proj.striker =
          (Striker.update sqrtq s.striker).proj from
        (Striker.update_proj sqrtq s.striker).symm]
    rw [Striker.proj_phys]
    by_cases hpk : (checkPocketP sqrtq (Striker.update sqrtq s.striker).phys).2 = true
    · rw [if_pos hpk, if_pos hpk]
      simp only [Option.map_some']
      rw [show ({ s.proj with striker :=
              { (Striker.update sqrtq s.striker).proj with
                  phys := (checkPocketP sqrtq
                    (Striker.update sqrtq s.striker).phys).1 } } : GameStateP) =
            ({ s with striker :=
              { Striker.update sqrtq s.striker with
                  phys := (checkPocketP sqrtq
                    (Striker.update sqrtq s.striker).phys).1 } } : GameState).proj
          from rfl]
      rw [← handleStrikerPocketed_proj]
    · rw [if_neg hpk, if_neg hpk]
      rw [show (s.proj.coins.map physCoinUpdate) =
            ((s.coins.map (Coin.update sqrtq)).map Coin.phys) from by
          rw [GameState.proj_coins, coins_update_proj]]
      simp only [List.length_map]
      rw [← collideLoop_proj sqrtq noise s.coins.length 0
            (Striker.update sqrtq s.striker) (s.coins.map (Coin.update sqrtq))]
      cases h2 : collideLoop sqrtq noise s.coins.length 0
          (Striker.update sqrtq s.striker) (s.coins.map (Coin.update sqrtq)) with
      | none => rfl
      | some r2 =>
          rcases r2 with ⟨st2, coins2⟩
          simp only [Option.map_some']
          have hstate : ({ s.proj with striker := st2.proj, coins := coins2.map Coin.phys } : GameStateP) = ({ s with striker := st2, coins := coins2 } : GameState).proj := rfl
          rw [hstate]
          obtain ⟨q1, q2⟩ :=
            resolveTick_proj sqrtq { s with striker := st2, coins := coins2 }
          rw [← q1, ← q2]

theorem shotRelease_proj (noise : List Particle) (vx vy : ℚ) (s : GameState) :
    (shotRelease noise vx vy s).proj = shotReleaseP vx vy s.proj := rfl

theorem gameTick_proj (sqrtq : ℚ → ℚ) (n : TickNoise) (inp : Option (ℚ × ℚ))
    (s : GameState) :
    (gameTick sqrtq n inp s).map (fun r => (r.1.proj, r.2)) =
    gameTickP sqrtq inp s.proj := by
  unfold gameTick gameTickP
  cases inp with
  | none => exact gameUpdate_proj sqrtq n.coll s
  | some v =>
      show (gameUpdate sqrtq n.coll (shotRelease n.shot v.1 v.2 s)).map _ =
        gameUpdateP sqrtq (shotReleaseP v.1 v.2 s.proj)
      rw [← shotRelease_proj n.shot v.1 v.2 s]
      exact gameUpdate_proj sqrtq n.coll (shotRelease n.shot v.1 v.2 s)

theorem runGame_proj (sqrtq : ℚ → ℚ) (inputs : List (Option (ℚ × ℚ))) :
    ∀ (noise : ℕ → TickNoise) (s : GameState),
    (runGame sqrtq noise inputs s).map (fun r => (r.1.proj, r.2)) =
    runGameP sqrtq inputs s.proj := by
  induction inputs with
  | nil => intro noise s; rfl
  | cons inp rest ih =>
      intro noise s
      unfold runGame runGameP
      rw [← gameTick_proj sqrtq (noise 0) inp s]
      cases h : gameTick sqrtq (noise 0) inp s with
      | none => rfl
      | some r =>
          rcases r with ⟨s1, ev⟩
          simp only [Option.map_some']
          rw [← ih (fun n => noise (n + 1)) s1]
          cases h2 : runGame sqrtq (fun n => noise (n + 1)) rest s1 with
          | none => rfl
          | some r2 => rfl

/-- Claim C8: the simulation is deterministic with respect to captures —
two runs from states with identical physical data (positions,
velocities, radii, captured flags, striker state, rule state; i.e.
identical projections) and identical per-tick shot inputs produce
identical capture-event sequences and identical physical states,
whatever the cosmetic random draws (disc rotations and strike
particles) are: the randomness never influences any position, velocity
or capture outcome.  The shot input is the striker velocity pair, the
deterministic image `cos/sin(angle) * power` of the angle/power input. -/
theorem C8_cosmeticsIndependence (sqrtq : ℚ → ℚ) (n1 n2 : ℕ → TickNoise)
    (inputs : List (Option (ℚ × ℚ))) (s1 s2 : GameState)
    (h : s1.proj = s2.proj) :
    (runGame sqrtq n1 inputs s1).map (fun r => (r.1.proj, r.2)) =
    (runGame sqrtq n2 inputs s2).map (fun r => (r.1.proj, r.2)) := by
  rw [runGame_proj, runGame_proj, h]

/-- A cosmetic variant of `baseState`: same physics, different disc
rotations and a nonempty striker particle list. -/
def sC8 : GameState :=
  { baseState with
      striker := { baseState.striker with
                     rotation := 77,
                     strike_particles := [{ px := 1, py := 2, pvx := 3, pvy := 4, life := 5 }] },
      coins := baseState.coins.map (fun c => { c with rotation := c.rotation + 90 }) }

/-- A nonempty noise stream for the C8 witness. -/
def someNoise : TickNoise :=
  { shot := [{ px := 0, py := 0, pvx := 1, pvy := 1, life := 9 }],
    coll := fun _ => [{ px := 5, py := 5, pvx := 0, pvy := 0, life := 3 }] }

/-- Witness for C8 at two concrete cosmetically-different states and two
different noise streams. -/
theorem C8_cosmeticsIndependence_witness :
    baseState.proj = sC8.proj ∧
    (runGame sqrtId (fun _ => noNoise) [none, some (3, 0), none] baseState).map
      (fun r => (r.1.proj, r.2)) =
    (runGame sqrtId (fun _ => someNoise) [none, some (3, 0), none] sC8).map
      (fun r => (r.1.proj, r.2)) :=
  ⟨rfl, C8_cosmeticsIndependence sqrtId (fun _ => noNoise) (fun _ => someNoise)
    [none, some (3, 0), none] baseState sC8 rfl⟩

end Carrom
